import Mathlib

/-!
Verification development for the BeTransparent front-end.

This file gives a shallow embedding of the two source files the claims
concern:

* src/components/MermaidDiagram.tsx — the diagram-rendering lifecycle
  component (a useEffect with a per-invocation cancellation flag), modelled
  as a small state machine driven by lifecycle events;
* src/app/v1/page.tsx — environment-derived request configuration, the
  submitPrompt handler, and the derived flow/screen selection state,
  modelled as pure functions over an explicit page state.

JavaScript-specific behaviour that the claims depend on (string trimming,
truthiness of values, btoa base64, JSON.stringify escaping) is embedded
explicitly so that every definition is executable.
-/

namespace BeTransparent

/-! ### JavaScript string and value primitives -/

/-- Whitespace recognised by the JavaScript String.prototype.trim
(ECMA-262 WhiteSpace and LineTerminator code points that occur in
practice: TAB, LF, VT, FF, CR, SPACE, NBSP, LS, PS, BOM). -/
def jsWhitespace (c : Char) : Bool :=
  c = ' ' || c = '\t' || c = '\n' || c = '\r' ||
  c = Char.ofNat 11 || c = Char.ofNat 12 || c = Char.ofNat 160 ||
  c = Char.ofNat 8232 || c = Char.ofNat 8233 || c = Char.ofNat 65279

/-- JavaScript String.prototype.trim: drop leading and trailing whitespace. -/
def jsTrim (s : String) : String :=
  String.mk (((s.toList.dropWhile jsWhitespace).reverse.dropWhile jsWhitespace).reverse)

/-- Truthiness of a JavaScript string-or-undefined value: undefined and the
empty string are falsy, every other string is truthy. -/
def jsTruthyStr : Option String → Bool
  | none => false
  | some s => s ≠ ""

/-- JavaScript a || b on string-or-undefined values: b when a is falsy. -/
def jsOrStr (a b : Option String) : Option String :=
  if jsTruthyStr a then a else b

/-- The base64 alphabet used by btoa. -/
def base64Alphabet : List Char :=
  "ABCDEFGHIJKLMNOPQRSTUVWXYZabcdefghijklmnopqrstuvwxyz0123456789+/".toList

/-- One base64 digit. -/
def b64c (n : Nat) : Char := base64Alphabet.getD n '='

/-- Standard base64 of a byte sequence, with padding. -/
def base64Encode : List Nat → String
  | [] => ""
  | [a] => String.mk [b64c (a / 4), b64c (a % 4 * 16), '=', '=']
  | [a, b] => String.mk [b64c (a / 4), b64c (a % 4 * 16 + b / 16), b64c (b % 16 * 4), '=']
  | a :: b :: c :: rest =>
      String.mk [b64c (a / 4), b64c (a % 4 * 16 + b / 16), b64c (b % 16 * 4 + c / 64),
                 b64c (c % 64)]
        ++ base64Encode rest

/-- The browser btoa function on Latin-1 strings: base64 of the code points. -/
def btoa (s : String) : String := base64Encode (s.toList.map Char.toNat)

/-- JSON values, as produced by response.json(). -/
inductive JValue where
  | null
  | bool (b : Bool)
  | num (n : Int)
  | str (s : String)
  | arr (xs : List JValue)
  | obj (fields : List (String × JValue))

/-- Property access obj.k on a parsed JSON value: a field lookup on objects,
undefined (none) on every other value. -/
def jsGetField : JValue → String → Option JValue
  | JValue.obj fields, k => (fields.find? (fun p => p.1 = k)).map Prod.snd
  | _, _ => none

/-- JavaScript truthiness of a JSON value. -/
def jsTruthy : JValue → Bool
  | JValue.null => false
  | JValue.bool b => b
  | JValue.num n => n ≠ 0
  | JValue.str s => s ≠ ""
  | JValue.arr _ => true
  | JValue.obj _ => true

/-- The text a JSON value shows as when rendered into the status line
(strings render as themselves; only the string case is relied on). -/
def jsDisplay : JValue → String
  | JValue.str s => s
  | JValue.num n => toString n
  | JValue.bool true => "true"
  | JValue.bool false => "false"
  | JValue.null => ""
  | JValue.arr _ => ""
  | JValue.obj _ => ""

/-- One hexadecimal digit. -/
def hexDigit (n : Nat) : Char := "0123456789abcdef".toList.getD n '0'

/-- JSON.stringify escaping of a single character inside a string literal. -/
def jsonEscapeChar (c : Char) : String :=
  if c = '"' then "\\\""
  else if c = '\\' then "\\\\"
  else if c = Char.ofNat 8 then "\\b"
  else if c = Char.ofNat 9 then "\\t"
  else if c = Char.ofNat 10 then "\\n"
  else if c = Char.ofNat 12 then "\\f"
  else if c = Char.ofNat 13 then "\\r"
  else if c.toNat < 32 then
    "\\u00" ++ String.mk [hexDigit (c.toNat / 16), hexDigit (c.toNat % 16)]
  else String.singleton c

/-- JSON.stringify of a string value. -/
def jsonQuote (s : String) : String :=
  "\"" ++ String.join (s.toList.map jsonEscapeChar) ++ "\""

/-- JSON.stringify of the request payload (page.tsx line 209). -/
def stringifyQuery (prompt : String) : String :=
  "\x7b\"query\":" ++ jsonQuote prompt ++ "\x7d"

/-! ### MermaidDiagram (src/components/MermaidDiagram.tsx)

The component owns a container element and a useEffect keyed on the code
prop.  Each effect run captures a fresh local cancellation flag
(line 14), clears the container (lines 74-76), and starts an asynchronous
renderDiagram (lines 16-72); the cleanup (lines 79-84) sets the flag and
clears the container.  We model the lifecycle as a state machine over the
events React and the render promises can deliver. -/

/-- The configuration object passed to the rendering engine on every render
invocation (MermaidDiagram.tsx lines 28-38). -/
structure MermaidConfig where
  startOnLoad : Bool
  securityLevel : String
  theme : String
  flowchartUseMaxWidth : Bool
  themeVariablesFontSize : String
deriving DecidableEq, Repr

/-- The literal configuration from the source. -/
def mermaidInitConfig : MermaidConfig :=
  { startOnLoad := false
    securityLevel := "loose"
    theme := "default"
    flowchartUseMaxWidth := false
    themeVariablesFontSize := "16px" }

/-- The literal markup written on render failure (MermaidDiagram.tsx
lines 68-70). -/
def failureNoticeHtml : String :=
  "<div style=\"color:#fecaca;font-size:11px;\">Failed to render Mermaid diagram.</div>"

/-- Abstract content of the container element.  A successful render is
tagged with the invocation that produced it (for provenance) and the
trimmed code it rendered; a failure notice (the failureNoticeHtml markup)
is tagged with the invocation whose catch branch wrote it. -/
inductive DiagramContent where
  | empty
  | rendered (k : Nat) (d : String)
  | failureNotice (k : Nat)
deriving DecidableEq, Repr

/-- One run of the effect: the captured code prop, the per-invocation
cancellation flag (line 14), whether the rendering engine was reached
(lines 26-45), and the configuration passed to it if so. -/
structure RenderInvocation where
  code : String
  cancelled : Bool
  engineCalled : Bool
  initConfig : Option MermaidConfig
deriving DecidableEq, Repr

/-- Component state: whether the container is mounted, its content, the
superseded effect runs in order, the current effect run, and the log of
render errors (console.error on line 66), by invocation index. -/
structure DiagramState where
  mounted : Bool
  container : DiagramContent
  older : List RenderInvocation
  current : Option RenderInvocation
  errorLog : List Nat
deriving DecidableEq, Repr

/-- Lifecycle events: a commit of the code prop (fresh mount or change,
running the previous cleanup and then the effect), unmount (running the
cleanup), and the asynchronous completion — fulfilment or rejection — of
the render started by invocation k. -/
inductive DiagramEvent where
  | setCode (d : String)
  | unmount
  | renderResolves (k : Nat)
  | renderRejects (k : Nat)
deriving DecidableEq, Repr

/-- Invocation number k: the current invocation when k equals the number of
superseded ones, otherwise the superseded invocation at position k. -/
def targetInv (s : DiagramState) (k : Nat) : Option RenderInvocation :=
  if k = s.older.length then s.current else s.older.get? k

/-- The invocation created by one effect run for code d: renderDiagram
returns before touching the engine when the trimmed code is empty
(lines 19-23); otherwise it initializes the engine with the literal
configuration and starts a render (lines 26-45). -/
def newInvocation (d : String) : RenderInvocation :=
  { code := d
    cancelled := false
    engineCalled := if jsTrim d = "" then false else true
    initConfig := if jsTrim d = "" then none else some mermaidInitConfig }

/-- One step of the lifecycle machine.

* setCode d (only while mounted): the previous effect's cleanup runs —
  its flag is set and the container cleared (lines 79-84) — then the new
  effect clears the container (lines 74-76) and runs renderDiagram.
* unmount: the cleanup runs for the current invocation and the component
  is gone.
* renderResolves k: the render promise of invocation k fulfils; the
  result is applied only if the invocation was not cancelled and the
  container still exists (guard on line 47).
* renderRejects k: the render promise of invocation k rejects; the catch
  logs the error (line 66) and writes the failure notice only if the
  invocation was not cancelled and the container still exists
  (lines 67-70). -/
def step (s : DiagramState) : DiagramEvent → DiagramState
  | DiagramEvent.setCode d =>
      if s.mounted = true then
        { s with
          older := (match s.current with
                    | some inv => s.older ++ [{ inv with cancelled := true }]
                    | none => s.older)
          current := some (newInvocation d)
          container := DiagramContent.empty }
      else s
  | DiagramEvent.unmount =>
      if s.mounted = true then
        { s with
          current := s.current.map (fun inv => { inv with cancelled := true })
          container := DiagramContent.empty
          mounted := false }
      else s
  | DiagramEvent.renderResolves k =>
      match targetInv s k with
      | some inv =>
          if inv.engineCalled = false then s
          else if inv.cancelled = true ∨ s.mounted = false then s
          else { s with container := DiagramContent.rendered k (jsTrim inv.code) }
      | none => s
  | DiagramEvent.renderRejects k =>
      match targetInv s k with
      | some inv =>
          if inv.engineCalled = false then s
          else if inv.cancelled = false ∧ s.mounted = true then
            { s with container := DiagramContent.failureNotice k
                     errorLog := s.errorLog ++ [k] }
          else { s with errorLog := s.errorLog ++ [k] }
      | none => s

/-- Freshly mounted component, before the first effect runs. -/
def diagramInit : DiagramState :=
  { mounted := true
    container := DiagramContent.empty
    older := []
    current := none
    errorLog := [] }

/-- Run a sequence of lifecycle events from the initial state. -/
def runDiagram (es : List DiagramEvent) : DiagramState :=
  es.foldl step diagramInit

/-- Is the event an asynchronous render completion (as opposed to a React
lifecycle commit)? -/
def isAsyncEvent : DiagramEvent → Bool
  | DiagramEvent.renderResolves _ => true
  | DiagramEvent.renderRejects _ => true
  | _ => false

/-- The event list consists only of asynchronous render completions. -/
abbrev asyncOnly (es : List DiagramEvent) : Prop := es.all isAsyncEvent = true

/-- The machine invariant: every superseded invocation is cancelled; an
unmounted component has an empty container and a cancelled current
invocation; any rendered or failed content in the container stems from the
current (latest) invocation; and every invocation's engine fields are
determined by its trimmed code as in the effect body. -/
structure DInv (s : DiagramState) : Prop where
  older_cancelled : ∀ inv ∈ s.older, inv.cancelled = true
  unmounted_empty : s.mounted = false → s.container = DiagramContent.empty
  unmounted_cancelled : s.mounted = false → ∀ inv, s.current = some inv → inv.cancelled = true
  rendered_latest : ∀ k d, s.container = DiagramContent.rendered k d →
      k = s.older.length ∧ ∃ inv, s.current = some inv ∧ d = jsTrim inv.code
  failed_latest : ∀ k, s.container = DiagramContent.failureNotice k →
      k = s.older.length ∧ ∃ inv, s.current = some inv
  engine_config : ∀ inv, (s.current = some inv ∨ inv ∈ s.older) →
      inv.engineCalled = (if jsTrim inv.code = "" then false else true) ∧
      inv.initConfig = (if jsTrim inv.code = "" then none else some mermaidInitConfig)

/-- A state from which no asynchronous completion can write the container:
either the component is unmounted, or every invocation that reached the
engine has been cancelled. -/
def noLiveRender (s : DiagramState) : Prop :=
  s.mounted = false ∨
  ∀ k inv, targetInv s k = some inv → inv.engineCalled = true → inv.cancelled = true

/-- The invocation the machine creates for the description graph TD. -/
def invGraphTD : RenderInvocation :=
  { code := "graph TD", cancelled := false, engineCalled := true,
    initConfig := some mermaidInitConfig }

/-! ### Data model of the page (src/app/v1/page.tsx lines 13-99) -/

/-- ScreenAction (lines 15-19). -/
structure ScreenAction where
  label : String
  navigates_to_screen_id : Option String
  navigates_to_step_slug : Option String
deriving DecidableEq, Repr

/-- ScreenComponent (lines 21-29). -/
structure ScreenComponent where
  component_slug : String
  label : String
  placeholder : Option String
  role : Option String
  repeats : Option String
  binding : Option String
  actions : Option (List ScreenAction)
deriving DecidableEq, Repr

/-- ScreenSection (lines 31-36). -/
structure ScreenSection where
  type : String
  title : Option String
  description : Option String
  components : List ScreenComponent
deriving DecidableEq, Repr

/-- Screen (lines 38-48). -/
structure Screen where
  screen_id : String
  screen_type : String
  title : String
  subtitle : Option String
  functional_description : String
  sections : List ScreenSection
  primary_action : Option ScreenAction
  step_slugs : Option (List String)
  mermaid_node_ids : Option (List String)
deriving DecidableEq, Repr

/-- ScreenFlow (lines 50-55). -/
structure ScreenFlow where
  flow_slug : String
  name : String
  description : Option String
  screens : List String
deriving DecidableEq, Repr

/-- EvaluationWorkflow (lines 58-68).  JavaScript numbers are modelled as
integers; no claim performs arithmetic on them. -/
structure EvaluationWorkflow where
  workflow_id : Option String
  workflow_title : Option String
  estimated_clicks : Option Int
  unusual_component_count : Option Int
  unusual_components : Option (List String)
  design_system_alignment : Option Int
  overall_score : Option Int
  pros : Option (List String)
  cons : Option (List String)
deriving DecidableEq, Repr

/-- EvaluationResult (lines 70-74). -/
structure EvaluationResult where
  workflows : Option (List EvaluationWorkflow)
  recommended_workflow_id : Option String
  recommendation_explanation : Option String
deriving DecidableEq, Repr

/-- VectorHit (lines 76-82). -/
structure VectorHit where
  source_type : String
  code : String
  name : String
  similarity : Int
  content : String
deriving DecidableEq, Repr

/-- The retrieval slice of the response (lines 91-94). -/
structure Retrieval where
  vector_context_raw : String
  vector_hits : List VectorHit
deriving DecidableEq, Repr

/-- The debug slice of the response (lines 95-98); the two bundles are
untyped JSON records in the source. -/
structure DebugPayload where
  agent1_bundle : JValue
  agent2_normalized : JValue

/-- YanaResult (lines 84-99): the decoded WorkflowResult.  service and
ui_graph are untyped JSON records in the source. -/
structure YanaResult where
  service : JValue
  ui_graph : JValue
  screen_flows : List ScreenFlow
  screens : List Screen
  global_mermaid : String
  evaluation : Option EvaluationResult
  retrieval : Option Retrieval
  debug : Option DebugPayload

/-! ### Environment configuration and request building (lines 6-11, 201-210) -/

/-- The environment variables the module reads (page.tsx lines 7-9);
none models an unset variable. -/
structure ProcessEnv where
  API_HOST : Option String
  NEXT_PUBLIC_API_HOST : Option String
  USERNAME : Option String
  NEXT_PUBLIC_USERNAME : Option String
  PASSWORD : Option String
  NEXT_PUBLIC_PASSWORD : Option String
deriving DecidableEq, Repr

/-- apiHost (line 7): API_HOST || NEXT_PUBLIC_API_HOST || ''. -/
def apiHost (env : ProcessEnv) : String :=
  (jsOrStr env.API_HOST env.NEXT_PUBLIC_API_HOST).getD ""

/-- username (line 8): USERNAME || NEXT_PUBLIC_USERNAME. -/
def username (env : ProcessEnv) : Option String :=
  jsOrStr env.USERNAME env.NEXT_PUBLIC_USERNAME

/-- password (line 9): PASSWORD || NEXT_PUBLIC_PASSWORD. -/
def password (env : ProcessEnv) : Option String :=
  jsOrStr env.PASSWORD env.NEXT_PUBLIC_PASSWORD

/-- auth (lines 10-11): the Basic header value when both credentials are
truthy, the empty string otherwise. -/
def auth (env : ProcessEnv) : String :=
  if jsTruthyStr (username env) && jsTruthyStr (password env) then
    "Basic " ++ btoa ((username env).getD "" ++ ":" ++ (password env).getD "")
  else ""

/-- The request issued by submitPrompt (lines 201-210).  The Authorization
header is spread in only when auth is truthy (line 207). -/
structure Request where
  method : String
  url : String
  contentType : String
  authorization : Option String
  body : String
deriving DecidableEq, Repr

/-- fetch arguments built on lines 201-210. -/
def buildRequest (env : ProcessEnv) (prompt : String) : Request :=
  { method := "POST"
    url := apiHost env ++ "/api/v1/search"
    contentType := "application/json"
    authorization := if auth env = "" then none else some (auth env)
    body := stringifyQuery prompt }

/-! ### submitPrompt (lines 180-241) -/

/-- The 4-state submission status (lines 183-185). -/
inductive ResponseStatus where
  | notSent
  | sent
  | received
  | error
deriving DecidableEq, Repr

/-- The view state submitPrompt reads and writes (lines 181-189). -/
structure PageState where
  prompt : String
  yanaResult : Option YanaResult
  responseStatus : ResponseStatus
  errorMessage : Option String
  activeFlowSlug : Option String
  activeScreenId : Option String

/-- How the network behaves for one submission: the fetch promise rejects
(transport failure, with the Error message), or a response arrives with
response.ok = false (a non-2xx status; body is the result of
response.json(), which may itself fail), or a response arrives with
response.ok = true (a 2xx status; body is the result of response.json()
read into the YanaResult shape — the source performs no validation). -/
inductive FetchOutcome where
  | transportFailure (message : String)
  | httpFailure (status : Nat) (body : Except String JValue)
  | httpSuccess (body : Except String YanaResult)

/-- The fallback status message (line 222). -/
def fallbackMsg (status : Nat) : String :=
  "Request failed with " ++ toString status

/-- The result of one submitPrompt call: the updated view state and the
network requests issued. -/
structure SubmitResult where
  state : PageState
  requests : List Request

/-- JavaScript xs[0] || null on a string array (line 234 and line 414). -/
def jsHeadOrNull (l : List String) : Option String :=
  match l.head? with
  | some s => if s = "" then none else some s
  | none => none

/-- submitPrompt (lines 191-241) as a pure function of the current state,
the environment and the network behaviour.  Blank prompts return before
fetching (lines 193-195).  Otherwise status becomes sent and the message
is cleared (lines 198-199), the request is issued, and:

* a rejected fetch or a failing response.json() in the success branch
  lands in the catch (lines 236-240): status error, message from the
  Error (or the literal Unknown error when that message is falsy);
* a non-ok response (lines 212-225): status error, message from the
  body's error field when the body parsed and the field is truthy, else
  the fallback; nothing else changes;
* an ok response (lines 227-235): the result is stored, status becomes
  received, and when it has at least one flow that flow's slug and first
  screen id (or null) become the active selection. -/
def submitPrompt (st : PageState) (env : ProcessEnv) (net : FetchOutcome) : SubmitResult :=
  if jsTrim st.prompt = "" then { state := st, requests := [] }
  else
    let st1 := { st with responseStatus := ResponseStatus.sent, errorMessage := none }
    let req := buildRequest env st.prompt
    match net with
    | FetchOutcome.transportFailure msg =>
        { state := { st1 with responseStatus := ResponseStatus.error
                              errorMessage := some (if msg = "" then "Unknown error" else msg) }
          requests := [req] }
    | FetchOutcome.httpFailure status body =>
        let errMsg : String :=
          match body with
          | Except.ok j =>
              match jsGetField j "error" with
              | some v => if jsTruthy v = true then jsDisplay v else fallbackMsg status
              | none => fallbackMsg status
          | Except.error _ => fallbackMsg status
        { state := { st1 with responseStatus := ResponseStatus.error
                              errorMessage := some errMsg }
          requests := [req] }
    | FetchOutcome.httpSuccess body =>
        match body with
        | Except.error msg =>
            { state := { st1 with responseStatus := ResponseStatus.error
                                  errorMessage := some (if msg = "" then "Unknown error" else msg) }
              requests := [req] }
        | Except.ok data =>
            let st2 := { st1 with yanaResult := some data
                                  responseStatus := ResponseStatus.received }
            let st3 :=
              match data.screen_flows with
              | [] => st2
              | f :: _ => { st2 with activeFlowSlug := some f.flow_slug
                                     activeScreenId := jsHeadOrNull f.screens }
            { state := st3, requests := [req] }

/-! ### Derived flow and screen selection (lines 267-284, 412-415) -/

/-- JavaScript strict equality a === b between a nullable string and a
string: null is equal to no string. -/
def jsStrEq (a : Option String) (b : String) : Bool :=
  match a with
  | some s => s == b
  | none => false

/-- flows (line 267). -/
def flowsOf : Option YanaResult → List ScreenFlow
  | some y => y.screen_flows
  | none => []

/-- screens (line 268). -/
def screensOf : Option YanaResult → List Screen
  | some y => y.screens
  | none => []

/-- activeFlow (lines 270-271): the first flow whose slug strictly equals
the active slug, else the first flow, else null. -/
def activeFlowOf (result : Option YanaResult) (activeFlowSlug : Option String) :
    Option ScreenFlow :=
  match (flowsOf result).find? (fun f => jsStrEq activeFlowSlug f.flow_slug) with
  | some f => some f
  | none => (flowsOf result).head?

/-- screensForFlow (lines 273-278): the active flow's screen ids resolved
in order against the result's screens — first match wins, unresolvable
ids dropped. -/
def screensForFlow (result : Option YanaResult) (activeFlowSlug : Option String) :
    List Screen :=
  match activeFlowOf result activeFlowSlug, result with
  | some fl, some y =>
      fl.screens.filterMap (fun id => y.screens.find? (fun s => s.screen_id == id))
  | _, _ => []

/-- activeScreen (lines 280-284). -/
def activeScreenOf (result : Option YanaResult)
    (activeFlowSlug activeScreenId : Option String) : Option Screen :=
  let sff := screensForFlow result activeFlowSlug
  match sff.find? (fun s => jsStrEq activeScreenId s.screen_id) with
  | some s => some s
  | none =>
      match (screensOf result).find? (fun s => jsStrEq activeScreenId s.screen_id) with
      | some s => some s
      | none => sff.head?

/-- The flow tab onClick handler (lines 412-415). -/
def selectFlow (st : PageState) (f : ScreenFlow) : PageState :=
  { st with activeFlowSlug := some f.flow_slug
            activeScreenId := jsHeadOrNull f.screens }

/-- Modelled from the spec (section 4.2), for refinement comparison only:
the idealized PromptForm interface submit(text) -> Promise<WorkflowResult>,
failing with NetworkError (non-2xx or transport failure) or
EmptyInputError (blank submission rejected before sending).  This follows
the spec's words; the source realizes submission differently. -/
inductive SubmitFailure where
  | NetworkError
  | EmptyInputError
deriving DecidableEq, Repr

/-- Modelled from the spec (section 4.2): the promised behaviour of
submit(text) as an Except value. -/
def specSubmit (text : String) (net : FetchOutcome) : Except SubmitFailure YanaResult :=
  if jsTrim text = "" then Except.error SubmitFailure.EmptyInputError
  else
    match net with
    | FetchOutcome.transportFailure _ => Except.error SubmitFailure.NetworkError
    | FetchOutcome.httpFailure _ _ => Except.error SubmitFailure.NetworkError
    | FetchOutcome.httpSuccess (Except.ok d) => Except.ok d
    | FetchOutcome.httpSuccess (Except.error _) => Except.error SubmitFailure.NetworkError

/-! ### Concrete data used in closed instances -/

/-- An environment with host and both credentials configured. -/
def env0 : ProcessEnv :=
  { API_HOST := some "http://api.example"
    NEXT_PUBLIC_API_HOST := none
    USERNAME := some "u"
    NEXT_PUBLIC_USERNAME := none
    PASSWORD := some "p"
    NEXT_PUBLIC_PASSWORD := none }

/-- A fresh page state whose prompt is whitespace-only. -/
def blankSt : PageState :=
  { prompt := "   "
    yanaResult := none
    responseStatus := ResponseStatus.notSent
    errorMessage := none
    activeFlowSlug := none
    activeScreenId := none }

/-- A fresh page state with a non-blank prompt. -/
def stHi : PageState :=
  { prompt := "hi"
    yanaResult := none
    responseStatus := ResponseStatus.notSent
    errorMessage := none
    activeFlowSlug := none
    activeScreenId := none }

/-- A minimal screen with id s1. -/
def sA : Screen :=
  { screen_id := "s1"
    screen_type := "form"
    title := "Screen one"
    subtitle := none
    functional_description := "first"
    sections := []
    primary_action := none
    step_slugs := none
    mermaid_node_ids := none }

/-- A minimal screen with id s2. -/
def sB : Screen :=
  { sA with screen_id := "s2", title := "Screen two", functional_description := "second" }

/-- Two flows sharing the slug dup. -/
def flowOne : ScreenFlow :=
  { flow_slug := "dup", name := "Flow 1", description := none, screens := ["s1"] }

/-- Second flow with the duplicated slug. -/
def flowTwo : ScreenFlow :=
  { flow_slug := "dup", name := "Flow 2", description := none, screens := ["s2"] }

/-- A flow with the unique slug one. -/
def flowUno : ScreenFlow :=
  { flow_slug := "one", name := "Flow A", description := none, screens := ["s1"] }

/-- A flow with the unique slug two, listing two screens. -/
def flowDos : ScreenFlow :=
  { flow_slug := "two", name := "Flow B", description := none, screens := ["s2", "s1"] }

/-- A result whose two flows share a slug. -/
def yDup : YanaResult :=
  { service := JValue.obj []
    ui_graph := JValue.obj []
    screen_flows := [flowOne, flowTwo]
    screens := [sA, sB]
    global_mermaid := "graph TD"
    evaluation := none
    retrieval := none
    debug := none }

/-- A result with distinct flow slugs. -/
def yUniq : YanaResult := { yDup with screen_flows := [flowUno, flowDos] }

/-- A received page state holding the duplicate-slug result. -/
def stDup : PageState :=
  { prompt := "p"
    yanaResult := some yDup
    responseStatus := ResponseStatus.received
    errorMessage := none
    activeFlowSlug := none
    activeScreenId := none }

/-- A received page state holding the distinct-slug result. -/
def stUniq : PageState := { stDup with yanaResult := some yUniq }

/-! ### Lifecycle lemmas for the diagram machine -/

theorem runDiagram_append (t es : List DiagramEvent) :
    runDiagram (t ++ es) = es.foldl step (runDiagram t) := by
  simp [runDiagram, List.foldl_append]

/-- Asynchronous completions never change the mount status, the invocation
history or the current invocation: they may only write the container and
the error log. -/
theorem step_async_core (s : DiagramState) (e : DiagramEvent) (he : isAsyncEvent e = true) :
    (step s e).mounted = s.mounted ∧ (step s e).older = s.older ∧
    (step s e).current = s.current := by
  cases e with
  | setCode d => simp [isAsyncEvent] at he
  | unmount => simp [isAsyncEvent] at he
  | renderResolves k =>
      simp only [step]
      cases htv : targetInv s k with
      | none => exact ⟨rfl, rfl, rfl⟩
      | some inv =>
          by_cases h1 : inv.engineCalled = false
          · simp [h1]
          · by_cases h2 : inv.cancelled = true ∨ s.mounted = false
            · simp [h1, h2]
            · simp [h1, h2]
  | renderRejects k =>
      simp only [step]
      cases htv : targetInv s k with
      | none => exact ⟨rfl, rfl, rfl⟩
      | some inv =>
          by_cases h1 : inv.engineCalled = false
          · simp [h1]
          · by_cases h2 : inv.cancelled = false ∧ s.mounted = true
            · simp [h1, h2]
            · simp [h1, h2]

theorem foldl_async_core (s : DiagramState) (es : List DiagramEvent) (hes : asyncOnly es) :
    (es.foldl step s).mounted = s.mounted ∧ (es.foldl step s).older = s.older ∧
    (es.foldl step s).current = s.current := by
  induction es generalizing s with
  | nil => exact ⟨rfl, rfl, rfl⟩
  | cons e es ih =>
      have he : isAsyncEvent e = true ∧ es.all isAsyncEvent = true := by
        simpa [asyncOnly, List.all_cons, Bool.and_eq_true] using hes
      obtain ⟨h1, h2, h3⟩ := step_async_core s e he.1
      obtain ⟨g1, g2, g3⟩ := ih (step s e) he.2
      exact ⟨g1.trans h1, g2.trans h2, g3.trans h3⟩

theorem DInv_init : DInv diagramInit := by
  constructor <;> simp [diagramInit]

/-- Locating a live (uncancelled) completion target: it must be the
current invocation. -/
theorem targetInv_uncancelled (s : DiagramState) (k : Nat) (inv : RenderInvocation)
    (h : DInv s) (htv : targetInv s k = some inv) (hcanc : inv.cancelled = false) :
    k = s.older.length ∧ s.current = some inv := by
  by_cases hk : k = s.older.length
  · refine ⟨hk, ?_⟩
    rw [targetInv, if_pos hk] at htv
    exact htv
  · rw [targetInv, if_neg hk] at htv
    have hmem : inv ∈ s.older := List.get?_mem htv
    have := h.older_cancelled inv hmem
    rw [hcanc] at this
    exact absurd this (by simp)

theorem DInv_step (s : DiagramState) (e : DiagramEvent) (h : DInv s) : DInv (step s e) := by
  cases e with
  | setCode d =>
      cases hm : s.mounted with
      | false => simpa [step, hm] using h
      | true =>
          simp only [step, hm, if_pos]
          constructor
          · intro inv hmem
            cases hc : s.current with
            | none =>
                rw [hc] at hmem
                exact h.older_cancelled inv hmem
            | some c =>
                rw [hc] at hmem
                rcases List.mem_append.mp hmem with hold | hnew
                · exact h.older_cancelled inv hold
                · rw [List.mem_singleton.mp hnew]
          · intro hfalse; simp at hfalse
          · intro hfalse; simp at hfalse
          · intro k d' hcont; exact absurd hcont (by simp)
          · intro k hcont; exact absurd hcont (by simp)
          · intro inv hmem
            rcases hmem with hcur | hold
            · have hinv : newInvocation d = inv := by simpa using hcur
              subst hinv
              exact ⟨rfl, rfl⟩
            · cases hc : s.current with
              | none =>
                  rw [hc] at hold
                  exact h.engine_config inv (Or.inr hold)
              | some c =>
                  rw [hc] at hold
                  rcases List.mem_append.mp hold with h1 | h2
                  · exact h.engine_config inv (Or.inr h1)
                  · rw [List.mem_singleton.mp h2]
                    exact h.engine_config c (Or.inl hc)
  | unmount =>
      cases hm : s.mounted with
      | false => simpa [step, hm] using h
      | true =>
          simp only [step, hm, if_pos]
          constructor
          · exact h.older_cancelled
          · intro _; rfl
          · intro _ inv hcur
            cases hc : s.current with
            | none => rw [hc] at hcur; exact absurd hcur (by simp)
            | some c =>
                rw [hc] at hcur
                have hinv : { c with cancelled := true } = inv := by simpa using hcur
                subst hinv
                rfl
          · intro k d' hcont; exact absurd hcont (by simp)
          · intro k hcont; exact absurd hcont (by simp)
          · intro inv hmem
            rcases hmem with hcur | hold
            · cases hc : s.current with
              | none => rw [hc] at hcur; exact absurd hcur (by simp)
              | some c =>
                  rw [hc] at hcur
                  have hinv : { c with cancelled := true } = inv := by simpa using hcur
                  subst hinv
                  exact h.engine_config c (Or.inl hc)
            · exact h.engine_config inv (Or.inr hold)
  | renderResolves k =>
      simp only [step]
      cases htv : targetInv s k with
      | none => exact h
      | some inv =>
          by_cases he : inv.engineCalled = false
          · simpa [he] using h
          · by_cases hg : inv.cancelled = true ∨ s.mounted = false
            · simpa [he, hg] using h
            · push_neg at hg
              have hcanc : inv.cancelled = false := by simpa using hg.1
              have hmnt : s.mounted = true := by simpa using hg.2
              have hcur := targetInv_uncancelled s k inv h htv hcanc
              suffices hDI : DInv { s with container := DiagramContent.rendered k (jsTrim inv.code) } by
                simpa [he, hcanc, hmnt] using hDI
              refine ⟨h.older_cancelled, ?_, ?_, ?_, ?_, h.engine_config⟩
              · intro hf
                have hf' : s.mounted = false := hf
                rw [hmnt] at hf'
                exact absurd hf' (by simp)
              · intro hf
                have hf' : s.mounted = false := hf
                rw [hmnt] at hf'
                exact absurd hf' (by simp)
              · intro k' d' hcont
                have hcont' : DiagramContent.rendered k (jsTrim inv.code)
                    = DiagramContent.rendered k' d' := hcont
                injection hcont' with h1 h2
                rw [← h1, ← h2]
                exact ⟨hcur.1, inv, hcur.2, rfl⟩
              · intro k' hcont
                have hcont' : DiagramContent.rendered k (jsTrim inv.code)
                    = DiagramContent.failureNotice k' := hcont
                exact absurd hcont' (by simp)
  | renderRejects k =>
      simp only [step]
      cases htv : targetInv s k with
      | none => exact h
      | some inv =>
          by_cases he : inv.engineCalled = false
          · simpa [he] using h
          · by_cases hg : inv.cancelled = false ∧ s.mounted = true
            · have hcur := targetInv_uncancelled s k inv h htv hg.1
              suffices hDI : DInv { s with container := DiagramContent.failureNotice k
                                           errorLog := s.errorLog ++ [k] } by
                simpa [he, hg] using hDI
              refine ⟨h.older_cancelled, ?_, ?_, ?_, ?_, h.engine_config⟩
              · intro hf
                have hf' : s.mounted = false := hf
                rw [hg.2] at hf'
                exact absurd hf' (by simp)
              · intro hf
                have hf' : s.mounted = false := hf
                rw [hg.2] at hf'
                exact absurd hf' (by simp)
              · intro k' d' hcont
                have hcont' : DiagramContent.failureNotice k
                    = DiagramContent.rendered k' d' := hcont
                exact absurd hcont' (by simp)
              · intro k' hcont
                have hcont' : DiagramContent.failureNotice k
                    = DiagramContent.failureNotice k' := hcont
                injection hcont' with h1
                rw [← h1]
                exact ⟨hcur.1, inv, hcur.2⟩
            · suffices hDI : DInv { s with errorLog := s.errorLog ++ [k] } by
                simpa [he, hg] using hDI
              exact ⟨h.older_cancelled, h.unmounted_empty, h.unmounted_cancelled,
                     h.rendered_latest, h.failed_latest, h.engine_config⟩

theorem DInv_foldl (s : DiagramState) (es : List DiagramEvent) (h : DInv s) :
    DInv (es.foldl step s) := by
  induction es generalizing s with
  | nil => exact h
  | cons e es ih => exact ih (step s e) (DInv_step s e h)

theorem DInv_run (t : List DiagramEvent) : DInv (runDiagram t) :=
  DInv_foldl diagramInit t DInv_init

theorem async_keeps_empty (s : DiagramState) (es : List DiagramEvent)
    (hes : asyncOnly es) (hempty : s.container = DiagramContent.empty)
    (hlive : noLiveRender s) :
    (es.foldl step s).container = DiagramContent.empty := by
  induction es generalizing s with
  | nil => exact hempty
  | cons e es ih =>
      have he : isAsyncEvent e = true ∧ es.all isAsyncEvent = true := by
        simpa [asyncOnly, List.all_cons, Bool.and_eq_true] using hes
      have hstep : (step s e).container = DiagramContent.empty ∧
          (step s e).mounted = s.mounted ∧ (step s e).older = s.older ∧
          (step s e).current = s.current := by
        cases e with
        | setCode d => simp [isAsyncEvent] at he
        | unmount => simp [isAsyncEvent] at he
        | renderResolves k =>
            simp only [step]
            cases htv : targetInv s k with
            | none => exact ⟨hempty, rfl, rfl, rfl⟩
            | some inv =>
                by_cases heng : inv.engineCalled = false
                · simp [heng, hempty]
                · have heng' : inv.engineCalled = true := by simpa using heng
                  have hcan : inv.cancelled = true ∨ s.mounted = false := by
                    rcases hlive with hm | hl
                    · exact Or.inr hm
                    · exact Or.inl (hl k inv htv heng')
                  simp [heng, hcan, hempty]
        | renderRejects k =>
            simp only [step]
            cases htv : targetInv s k with
            | none => exact ⟨hempty, rfl, rfl, rfl⟩
            | some inv =>
                by_cases heng : inv.engineCalled = false
                · simp [heng, hempty]
                · have heng' : inv.engineCalled = true := by simpa using heng
                  have hcan : ¬(inv.cancelled = false ∧ s.mounted = true) := by
                    rcases hlive with hm | hl
                    · intro hc; rw [hm] at hc; exact absurd hc.2 (by simp)
                    · intro hc
                      have := hl k inv htv heng'
                      rw [hc.1] at this
                      exact absurd this (by simp)
                  simp [heng, hcan, hempty]
      have hlive' : noLiveRender (step s e) := by
        rcases hlive with hm | hl
        · exact Or.inl (hstep.2.1.trans hm)
        · refine Or.inr ?_
          intro k inv htv heng
          apply hl k inv _ heng
          rw [targetInv, hstep.2.2.1, hstep.2.2.2] at htv
          rw [targetInv]
          exact htv
      exact ih (step s e) he.2 hstep.1 hlive'

/-! ### Claims about the diagram lifecycle -/

/-- Claim C1: for distinct diagram descriptions d1 then d2 set in
succession, whatever asynchronous render completions later arrive and in
whatever order, any rendered markup in the container stems from the latest
invocation, whose captured code is d2 and whose output is the render of
d2's trimmed text — a superseded render (d1's) is discarded by the
per-invocation cancellation flag before being applied to the DOM. -/
theorem superseded_render_never_applied (t es : List DiagramEvent) (d1 d2 : String)
    (hne : d1 ≠ d2) (hes : asyncOnly es) :
    ∀ k d,
      (runDiagram (t ++ DiagramEvent.setCode d1 :: DiagramEvent.setCode d2 :: es)).container
        = DiagramContent.rendered k d →
      d = jsTrim d2 ∧
      k = (runDiagram (t ++ DiagramEvent.setCode d1 :: DiagramEvent.setCode d2 :: es)).older.length ∧
      ∃ inv,
        (runDiagram (t ++ DiagramEvent.setCode d1 :: DiagramEvent.setCode d2 :: es)).current
          = some inv ∧ inv.code = d2 := by
  intro k d hcont
  have hsplit : t ++ DiagramEvent.setCode d1 :: DiagramEvent.setCode d2 :: es
      = (t ++ [DiagramEvent.setCode d1, DiagramEvent.setCode d2]) ++ es := by
    simp
  have hrun : runDiagram (t ++ DiagramEvent.setCode d1 :: DiagramEvent.setCode d2 :: es)
      = es.foldl step (runDiagram (t ++ [DiagramEvent.setCode d1, DiagramEvent.setCode d2])) := by
    rw [hsplit, runDiagram_append]
  have h2 : runDiagram (t ++ [DiagramEvent.setCode d1, DiagramEvent.setCode d2])
      = step (step (runDiagram t) (DiagramEvent.setCode d1)) (DiagramEvent.setCode d2) := by
    rw [runDiagram_append]
    rfl
  have hcore :=
    foldl_async_core (runDiagram (t ++ [DiagramEvent.setCode d1, DiagramEvent.setCode d2])) es hes
  have hdinv := DInv_run (t ++ DiagramEvent.setCode d1 :: DiagramEvent.setCode d2 :: es)
  obtain ⟨hk, inv, hcurr, hd⟩ := hdinv.rendered_latest k d hcont
  cases hm : (runDiagram t).mounted with
  | true =>
      have hcur2 : (runDiagram (t ++ [DiagramEvent.setCode d1, DiagramEvent.setCode d2])).current
          = some (newInvocation d2) := by
        rw [h2]
        simp [step, hm]
      have hcurfull :
          (runDiagram (t ++ DiagramEvent.setCode d1 :: DiagramEvent.setCode d2 :: es)).current
            = some (newInvocation d2) := by
        rw [hrun, hcore.2.2, hcur2]
      have hinv : inv = newInvocation d2 := by
        rw [hcurfull] at hcurr
        simpa using hcurr.symm
      refine ⟨?_, hk, inv, hcurr, ?_⟩
      · rw [hd, hinv]
        rfl
      · rw [hinv]
        rfl
  | false =>
      have hs2 : runDiagram (t ++ [DiagramEvent.setCode d1, DiagramEvent.setCode d2])
          = runDiagram t := by
        rw [h2]
        simp [step, hm]
      have hmf :
          (runDiagram (t ++ DiagramEvent.setCode d1 :: DiagramEvent.setCode d2 :: es)).mounted
            = false := by
        rw [hrun, hcore.1, hs2]
        exact hm
      have hempty := hdinv.unmounted_empty hmf
      rw [hempty] at hcont
      exact absurd hcont (by simp)

/-- Witness for C1: the concrete race where d1's render resolves after the
input has changed to d2 and then d2's render resolves; the container holds
d2's render and the theorem's provenance conclusion holds. -/
theorem superseded_render_never_applied_witness :
    (runDiagram [DiagramEvent.setCode "a", DiagramEvent.setCode "b",
        DiagramEvent.renderResolves 0, DiagramEvent.renderResolves 1]).container
      = DiagramContent.rendered 1 "b" ∧
    ("b" = jsTrim "b" ∧
      1 = (runDiagram [DiagramEvent.setCode "a", DiagramEvent.setCode "b",
            DiagramEvent.renderResolves 0, DiagramEvent.renderResolves 1]).older.length ∧
      ∃ inv,
        (runDiagram [DiagramEvent.setCode "a", DiagramEvent.setCode "b",
            DiagramEvent.renderResolves 0, DiagramEvent.renderResolves 1]).current
          = some inv ∧ inv.code = "b") := by
  constructor
  · decide
  · exact superseded_render_never_applied []
      [DiagramEvent.renderResolves 0, DiagramEvent.renderResolves 1] "a" "b"
      (by decide) (by decide) 1 "b" (by decide)

/-- Claim C2: unmounting while a render is pending marks the current
invocation cancelled and clears the container, and no asynchronous
completion arriving after the unmount ever writes into the container:
it stays empty through any sequence of late fulfilments or rejections. -/
theorem unmount_blocks_late_dom_writes (t es : List DiagramEvent) (hes : asyncOnly es) :
    (runDiagram (t ++ DiagramEvent.unmount :: es)).mounted = false ∧
    (runDiagram (t ++ DiagramEvent.unmount :: es)).container = DiagramContent.empty ∧
    (∀ inv, (runDiagram (t ++ DiagramEvent.unmount :: es)).current = some inv →
        inv.cancelled = true) ∧
    ∀ inv ∈ (runDiagram (t ++ DiagramEvent.unmount :: es)).older, inv.cancelled = true := by
  have hsplit : t ++ DiagramEvent.unmount :: es = (t ++ [DiagramEvent.unmount]) ++ es := by
    simp
  have hrun : runDiagram (t ++ DiagramEvent.unmount :: es)
      = es.foldl step (runDiagram (t ++ [DiagramEvent.unmount])) := by
    rw [hsplit, runDiagram_append]
  have hm1 : (runDiagram (t ++ [DiagramEvent.unmount])).mounted = false := by
    rw [runDiagram_append]
    show (step (runDiagram t) DiagramEvent.unmount).mounted = false
    cases hm : (runDiagram t).mounted with
    | true => simp [step, hm]
    | false => simp [step, hm]
  have hcore := foldl_async_core (runDiagram (t ++ [DiagramEvent.unmount])) es hes
  have hmf : (runDiagram (t ++ DiagramEvent.unmount :: es)).mounted = false := by
    rw [hrun, hcore.1]
    exact hm1
  have hdinv := DInv_run (t ++ DiagramEvent.unmount :: es)
  exact ⟨hmf, hdinv.unmounted_empty hmf, hdinv.unmounted_cancelled hmf, hdinv.older_cancelled⟩

/-- Witness for C2: a render is started, the component unmounts, and the
render then resolves; nothing is painted. -/
theorem unmount_blocks_late_dom_writes_witness :
    (runDiagram ([DiagramEvent.setCode "graph TD"] ++ DiagramEvent.unmount ::
        [DiagramEvent.renderResolves 0])).mounted = false ∧
    (runDiagram ([DiagramEvent.setCode "graph TD"] ++ DiagramEvent.unmount ::
        [DiagramEvent.renderResolves 0])).container = DiagramContent.empty ∧
    (∀ inv, (runDiagram ([DiagramEvent.setCode "graph TD"] ++ DiagramEvent.unmount ::
        [DiagramEvent.renderResolves 0])).current = some inv → inv.cancelled = true) ∧
    ∀ inv ∈ (runDiagram ([DiagramEvent.setCode "graph TD"] ++ DiagramEvent.unmount ::
        [DiagramEvent.renderResolves 0])).older, inv.cancelled = true :=
  unmount_blocks_late_dom_writes [DiagramEvent.setCode "graph TD"]
    [DiagramEvent.renderResolves 0] (by decide)

/-- Claim C3: when the trimmed input is empty the lifecycle leaves the
container empty and stops — the container stays empty through any later
asynchronous completions, and the invocation created for that input never
reaches the rendering engine (no configuration is ever passed to it). -/
theorem empty_input_renders_nothing (t es : List DiagramEvent) (d : String)
    (hd : jsTrim d = "") (hes : asyncOnly es) :
    (runDiagram (t ++ DiagramEvent.setCode d :: es)).container = DiagramContent.empty ∧
    ((runDiagram t).mounted = true →
      (runDiagram (t ++ DiagramEvent.setCode d :: es)).current
        = some { code := d, cancelled := false, engineCalled := false, initConfig := none }) := by
  have hsplit : t ++ DiagramEvent.setCode d :: es = (t ++ [DiagramEvent.setCode d]) ++ es := by
    simp
  have hrun : runDiagram (t ++ DiagramEvent.setCode d :: es)
      = es.foldl step (runDiagram (t ++ [DiagramEvent.setCode d])) := by
    rw [hsplit, runDiagram_append]
  have hstep : runDiagram (t ++ [DiagramEvent.setCode d])
      = step (runDiagram t) (DiagramEvent.setCode d) := by
    rw [runDiagram_append]
    rfl
  have hcore := foldl_async_core (runDiagram (t ++ [DiagramEvent.setCode d])) es hes
  cases hm : (runDiagram t).mounted with
  | true =>
      have hinv : newInvocation d
          = { code := d, cancelled := false, engineCalled := false, initConfig := none } := by
        simp [newInvocation, hd]
      have hcur1 : (runDiagram (t ++ [DiagramEvent.setCode d])).current
          = some (newInvocation d) := by
        rw [hstep]
        simp [step, hm]
      have hempty1 : (runDiagram (t ++ [DiagramEvent.setCode d])).container
          = DiagramContent.empty := by
        rw [hstep]
        simp [step, hm]
      have hlive : noLiveRender (runDiagram (t ++ [DiagramEvent.setCode d])) := by
        refine Or.inr ?_
        intro k inv htv heng
        by_cases hk : k = (runDiagram (t ++ [DiagramEvent.setCode d])).older.length
        · rw [targetInv, if_pos hk, hcur1] at htv
          have hinv' : newInvocation d = inv := by simpa using htv
          subst hinv'
          have : (newInvocation d).engineCalled = false := by simp [newInvocation, hd]
          rw [heng] at this
          exact absurd this (by simp)
        · rw [targetInv, if_neg hk] at htv
          exact (DInv_run (t ++ [DiagramEvent.setCode d])).older_cancelled inv
            (List.get?_mem htv)
      constructor
      · rw [hrun]
        exact async_keeps_empty (runDiagram (t ++ [DiagramEvent.setCode d])) es hes
          hempty1 hlive
      · intro _
        rw [hrun, hcore.2.2, hcur1, hinv]
  | false =>
      have hs1 : runDiagram (t ++ [DiagramEvent.setCode d]) = runDiagram t := by
        rw [hstep]
        simp [step, hm]
      have hmf : (runDiagram (t ++ DiagramEvent.setCode d :: es)).mounted = false := by
        rw [hrun, hcore.1, hs1]
        exact hm
      refine ⟨(DInv_run (t ++ DiagramEvent.setCode d :: es)).unmounted_empty hmf, ?_⟩
      intro hmt
      exact absurd hmt (by simp [hm])

/-- Witness for C3: mounting with the empty description and letting a
(spurious) completion arrive leaves the container empty and no engine
configuration on the invocation. -/
theorem empty_input_renders_nothing_witness :
    (runDiagram ([] ++ DiagramEvent.setCode "" :: [DiagramEvent.renderResolves 0])).container
      = DiagramContent.empty ∧
    ((runDiagram []).mounted = true →
      (runDiagram ([] ++ DiagramEvent.setCode "" :: [DiagramEvent.renderResolves 0])).current
        = some { code := "", cancelled := false, engineCalled := false, initConfig := none }) :=
  empty_input_renders_nothing [] [DiagramEvent.renderResolves 0] "" (by decide) (by decide)

/-- Claim C4: when the render of a live (uncancelled, still-mounted)
invocation throws, the catch branch writes the failure notice into the
container and logs the error; the step is a total function of the state,
so no exception propagates to the caller. -/
theorem render_failure_writes_notice (t : List DiagramEvent) (k : Nat)
    (inv : RenderInvocation)
    (hinv : targetInv (runDiagram t) k = some inv)
    (heng : inv.engineCalled = true)
    (hcan : inv.cancelled = false)
    (hm : (runDiagram t).mounted = true) :
    (runDiagram (t ++ [DiagramEvent.renderRejects k])).container
      = DiagramContent.failureNotice k ∧
    (runDiagram (t ++ [DiagramEvent.renderRejects k])).errorLog
      = (runDiagram t).errorLog ++ [k] := by
  rw [runDiagram_append]
  show (step (runDiagram t) (DiagramEvent.renderRejects k)).container
      = DiagramContent.failureNotice k ∧
    (step (runDiagram t) (DiagramEvent.renderRejects k)).errorLog
      = (runDiagram t).errorLog ++ [k]
  simp [step, hinv, heng, hcan, hm]

/-- Witness for C4: a started render rejects; the failure notice is shown
and the error logged. -/
theorem render_failure_writes_notice_witness :
    (runDiagram ([DiagramEvent.setCode "graph TD"] ++ [DiagramEvent.renderRejects 0])).container
      = DiagramContent.failureNotice 0 ∧
    (runDiagram ([DiagramEvent.setCode "graph TD"] ++ [DiagramEvent.renderRejects 0])).errorLog
      = (runDiagram [DiagramEvent.setCode "graph TD"]).errorLog ++ [0] :=
  render_failure_writes_notice [DiagramEvent.setCode "graph TD"] 0
    { code := "graph TD", cancelled := false, engineCalled := true,
      initConfig := some mermaidInitConfig }
    (by decide) (by decide) (by decide) (by decide)

/-- Claim C10: every invocation that reaches the rendering engine passes
it the literal configuration, whose securityLevel is the string loose
(and such an invocation only arises for input with non-empty trim). -/
theorem render_security_level_loose (t : List DiagramEvent) (inv : RenderInvocation)
    (hmem : (runDiagram t).current = some inv ∨ inv ∈ (runDiagram t).older)
    (heng : inv.engineCalled = true) :
    inv.initConfig = some mermaidInitConfig ∧
    mermaidInitConfig.securityLevel = "loose" ∧ jsTrim inv.code ≠ "" := by
  obtain ⟨h1, h2⟩ := (DInv_run t).engine_config inv hmem
  by_cases hd : jsTrim inv.code = ""
  · rw [if_pos hd] at h1
    rw [heng] at h1
    exact absurd h1 (by simp)
  · rw [if_neg hd] at h2
    exact ⟨h2, rfl, hd⟩

/-- Witness for C10: the invocation created for a concrete non-empty
description carries the loose configuration. -/
theorem render_security_level_loose_witness :
    invGraphTD.initConfig = some mermaidInitConfig ∧
    mermaidInitConfig.securityLevel = "loose" ∧
    jsTrim invGraphTD.code ≠ "" :=
  render_security_level_loose [DiagramEvent.setCode "graph TD"] invGraphTD
    (Or.inl (by decide)) (by decide)

/-! ### Claims about submission and selection -/

/-- Claim C5: a prompt that is empty or whitespace-only never reaches
fetch — submitPrompt issues no network request. -/
theorem blank_prompt_no_network_call (st : PageState) (env : ProcessEnv)
    (net : FetchOutcome) (h : jsTrim st.prompt = "") :
    (submitPrompt st env net).requests = [] := by
  simp [submitPrompt, h]

/-- Witness for C5: the whitespace-only prompt issues no request even with
a network standing by. -/
theorem blank_prompt_no_network_call_witness :
    (submitPrompt blankSt env0 (FetchOutcome.httpSuccess (Except.error "boom"))).requests
      = [] :=
  blank_prompt_no_network_call blankSt env0 (FetchOutcome.httpSuccess (Except.error "boom"))
    (by decide)

/-- Counterexample for C6: on a blank submission the spec-modelled
interface fails with EmptyInputError, but the code's submitPrompt
completes as a silent no-op: the state comes back unchanged (status still
notSent, no error message) and no request is issued, so no failing result
of any kind is produced. -/
theorem submit_blank_silent_noop_counterexample :
    specSubmit "   " (FetchOutcome.httpFailure 500 (Except.error "bad json"))
      = Except.error SubmitFailure.EmptyInputError ∧
    submitPrompt blankSt env0 (FetchOutcome.httpFailure 500 (Except.error "bad json"))
      = { state := blankSt, requests := [] } ∧
    blankSt.responseStatus = ResponseStatus.notSent ∧
    blankSt.errorMessage = none := by
  exact ⟨rfl, rfl, rfl, rfl⟩

/-- Claim C6 (amended): the code's submit operation never produces a
rejected result; every case is handled locally.  A blank prompt returns
unchanged with no request; a transport failure, a non-2xx response, or an
unparseable 2xx body sets status error with a message; a parseable 2xx
body stores the WorkflowResult and sets status received. -/
theorem submit_handles_all_outcomes_locally (st : PageState) (env : ProcessEnv)
    (net : FetchOutcome) :
    (jsTrim st.prompt = "" → submitPrompt st env net = { state := st, requests := [] }) ∧
    (jsTrim st.prompt ≠ "" →
      ((∀ m, net = FetchOutcome.transportFailure m →
          (submitPrompt st env net).state.responseStatus = ResponseStatus.error ∧
          (submitPrompt st env net).state.errorMessage.isSome = true) ∧
       (∀ status body, net = FetchOutcome.httpFailure status body →
          (submitPrompt st env net).state.responseStatus = ResponseStatus.error ∧
          (submitPrompt st env net).state.errorMessage.isSome = true ∧
          (submitPrompt st env net).state.yanaResult = st.yanaResult) ∧
       (∀ data, net = FetchOutcome.httpSuccess (Except.ok data) →
          (submitPrompt st env net).state.yanaResult = some data ∧
          (submitPrompt st env net).state.responseStatus = ResponseStatus.received) ∧
       (∀ m, net = FetchOutcome.httpSuccess (Except.error m) →
          (submitPrompt st env net).state.responseStatus = ResponseStatus.error ∧
          (submitPrompt st env net).state.errorMessage.isSome = true))) := by
  constructor
  · intro h
    simp [submitPrompt, h]
  · intro h
    refine ⟨?_, ?_, ?_, ?_⟩
    · intro m hnet
      subst hnet
      by_cases hm : m = "" <;> simp [submitPrompt, h, hm]
    · intro status body hnet
      subst hnet
      cases body with
      | error e => simp [submitPrompt, h]
      | ok j => simp [submitPrompt, h]
    · intro data hnet
      subst hnet
      cases hf : data.screen_flows with
      | nil => simp [submitPrompt, h, hf]
      | cons f rest => simp [submitPrompt, h, hf]
    · intro m hnet
      subst hnet
      by_cases hm : m = "" <;> simp [submitPrompt, h, hm]

/-- Witness for C6 (amended): a successful submission of a non-blank
prompt stores the result and reaches status received. -/
theorem submit_handles_all_outcomes_locally_witness :
    (submitPrompt stHi env0 (FetchOutcome.httpSuccess (Except.ok yDup))).state.responseStatus
      = ResponseStatus.received ∧
    (submitPrompt stHi env0 (FetchOutcome.httpSuccess (Except.ok yDup))).state.yanaResult
      = some yDup := by
  have h := submit_handles_all_outcomes_locally stHi env0
    (FetchOutcome.httpSuccess (Except.ok yDup))
  obtain ⟨hy, hs⟩ := (h.2 (by decide)).2.2.1 yDup rfl
  exact ⟨hs, hy⟩

/-- Claim C7: for a non-blank prompt exactly one request is issued: a POST
to apiHost/api/v1/search carrying the JSON body built from the prompt, with
Authorization equal to Basic followed by the base64 of username:password
exactly when both resolved credentials are configured (truthy), and no
Authorization header when either is absent. -/
theorem request_shape_and_basic_auth (st : PageState) (env : ProcessEnv)
    (net : FetchOutcome) (h : jsTrim st.prompt ≠ "") :
    (submitPrompt st env net).requests = [buildRequest env st.prompt] ∧
    (buildRequest env st.prompt).method = "POST" ∧
    (buildRequest env st.prompt).url = apiHost env ++ "/api/v1/search" ∧
    (buildRequest env st.prompt).contentType = "application/json" ∧
    (buildRequest env st.prompt).body = stringifyQuery st.prompt ∧
    (jsTruthyStr (username env) = true → jsTruthyStr (password env) = true →
        (buildRequest env st.prompt).authorization
          = some ("Basic " ++ btoa ((username env).getD "" ++ ":" ++ (password env).getD ""))) ∧
    ((jsTruthyStr (username env) = false ∨ jsTruthyStr (password env) = false) →
        (buildRequest env st.prompt).authorization = none) := by
  refine ⟨?_, rfl, rfl, rfl, rfl, ?_, ?_⟩
  · cases net with
    | transportFailure m => simp [submitPrompt, h]
    | httpFailure status body => simp [submitPrompt, h]
    | httpSuccess body =>
        cases body with
        | error m => simp [submitPrompt, h]
        | ok data =>
            cases hf : data.screen_flows with
            | nil => simp [submitPrompt, h, hf]
            | cons f rest => simp [submitPrompt, h, hf]
  · intro hu hp
    have ha : auth env
        = "Basic " ++ btoa ((username env).getD "" ++ ":" ++ (password env).getD "") := by
      simp [auth, hu, hp]
    have hb : ("Basic " ++ btoa ((username env).getD "" ++ ":" ++ (password env).getD ""))
        ≠ "" := by
      intro hc
      have h2 := congrArg String.length hc
      simp [String.length_append] at h2
      exact absurd h2.1 (by decide)
    simp [buildRequest, ha, hb]
  · intro hd
    have hz : auth env = "" := by
      rcases hd with hu | hp
      · simp [auth, hu]
      · simp [auth, hp]
    simp [buildRequest, hz]

/-- Witness for C7: with both credentials configured the request carries
the Basic header; the full request shape holds at a concrete prompt. -/
theorem request_shape_and_basic_auth_witness :
    (submitPrompt stHi env0 (FetchOutcome.transportFailure "down")).requests
      = [buildRequest env0 stHi.prompt] ∧
    (buildRequest env0 stHi.prompt).method = "POST" ∧
    (buildRequest env0 stHi.prompt).url = apiHost env0 ++ "/api/v1/search" ∧
    (buildRequest env0 stHi.prompt).contentType = "application/json" ∧
    (buildRequest env0 stHi.prompt).body = stringifyQuery stHi.prompt ∧
    (jsTruthyStr (username env0) = true → jsTruthyStr (password env0) = true →
        (buildRequest env0 stHi.prompt).authorization
          = some ("Basic " ++ btoa ((username env0).getD "" ++ ":" ++ (password env0).getD ""))) ∧
    ((jsTruthyStr (username env0) = false ∨ jsTruthyStr (password env0) = false) →
        (buildRequest env0 stHi.prompt).authorization = none) :=
  request_shape_and_basic_auth stHi env0 (FetchOutcome.transportFailure "down") (by decide)

/-- Counterexample for C8: a 500 response whose body carries the error
field with the empty string — the error string is present, yet the
surfaced message is the fallback, because the empty string is falsy in the
JavaScript disjunction on lines 220-223. -/
theorem non_ok_empty_error_string_counterexample :
    jsGetField (JValue.obj [("error", JValue.str "")]) "error" = some (JValue.str "") ∧
    (submitPrompt stHi env0 (FetchOutcome.httpFailure 500
        (Except.ok (JValue.obj [("error", JValue.str "")])))).state.errorMessage
      = some "Request failed with 500" ∧
    some "Request failed with 500" ≠ some ("" : String) := by
  refine ⟨rfl, ?_, by decide⟩
  rfl

/-- Claim C8 (amended): every non-2xx response is handled locally without
throwing to the view: status becomes error, the stored WorkflowResult and
the selection state are left unchanged, and the surfaced one-line message
is the body's error string when the body parsed and that string is
non-empty (truthy), and otherwise — body unparseable, error field absent,
or error field the empty string — the fallback Request failed with the
status code. -/
theorem non_ok_response_handled_locally (st : PageState) (env : ProcessEnv)
    (status : Nat) (body : Except String JValue) (h : jsTrim st.prompt ≠ "") :
    (submitPrompt st env (FetchOutcome.httpFailure status body)).state.responseStatus
      = ResponseStatus.error ∧
    (submitPrompt st env (FetchOutcome.httpFailure status body)).state.yanaResult
      = st.yanaResult ∧
    (submitPrompt st env (FetchOutcome.httpFailure status body)).state.activeFlowSlug
      = st.activeFlowSlug ∧
    (submitPrompt st env (FetchOutcome.httpFailure status body)).state.activeScreenId
      = st.activeScreenId ∧
    (∀ j s, body = Except.ok j → jsGetField j "error" = some (JValue.str s) → s ≠ "" →
        (submitPrompt st env (FetchOutcome.httpFailure status body)).state.errorMessage
          = some s) ∧
    (∀ e, body = Except.error e →
        (submitPrompt st env (FetchOutcome.httpFailure status body)).state.errorMessage
          = some (fallbackMsg status)) ∧
    (∀ j, body = Except.ok j → jsGetField j "error" = none →
        (submitPrompt st env (FetchOutcome.httpFailure status body)).state.errorMessage
          = some (fallbackMsg status)) ∧
    (∀ j, body = Except.ok j → jsGetField j "error" = some (JValue.str "") →
        (submitPrompt st env (FetchOutcome.httpFailure status body)).state.errorMessage
          = some (fallbackMsg status)) := by
  refine ⟨?_, ?_, ?_, ?_, ?_, ?_, ?_, ?_⟩
  · cases body with
    | error e => simp [submitPrompt, h]
    | ok j => simp [submitPrompt, h]
  · cases body with
    | error e => simp [submitPrompt, h]
    | ok j => simp [submitPrompt, h]
  · cases body with
    | error e => simp [submitPrompt, h]
    | ok j => simp [submitPrompt, h]
  · cases body with
    | error e => simp [submitPrompt, h]
    | ok j => simp [submitPrompt, h]
  · intro j s hb hf hs
    subst hb
    simp [submitPrompt, h, hf, jsTruthy, jsDisplay, hs]
  · intro e hb
    subst hb
    simp [submitPrompt, h]
  · intro j hb hf
    subst hb
    simp [submitPrompt, h, hf]
  · intro j hb hf
    subst hb
    simp [submitPrompt, h, hf, jsTruthy]

/-- Witness for C8 (amended): a 404 with a parseable body carrying a
non-empty error string surfaces that string and leaves the stored result
untouched. -/
theorem non_ok_response_handled_locally_witness :
    (submitPrompt stDup env0 (FetchOutcome.httpFailure 404
        (Except.ok (JValue.obj [("error", JValue.str "nope")])))).state.responseStatus
      = ResponseStatus.error ∧
    (submitPrompt stDup env0 (FetchOutcome.httpFailure 404
        (Except.ok (JValue.obj [("error", JValue.str "nope")])))).state.yanaResult
      = stDup.yanaResult ∧
    (submitPrompt stDup env0 (FetchOutcome.httpFailure 404
        (Except.ok (JValue.obj [("error", JValue.str "nope")])))).state.errorMessage
      = some "nope" := by
  have h := non_ok_response_handled_locally stDup env0 404
    (Except.ok (JValue.obj [("error", JValue.str "nope")])) (by decide)
  exact ⟨h.1, h.2.1, h.2.2.2.2.1 (JValue.obj [("error", JValue.str "nope")]) "nope"
    rfl rfl (by decide)⟩

/-- With a null active screen id every strict-equality lookup fails, so
the active screen falls back to the head of the rendered list. -/
theorem activeScreen_of_none (r : Option YanaResult) (afs : Option String) :
    activeScreenOf r afs none = (screensForFlow r afs).head? := by
  have h1 : (screensForFlow r afs).find? (fun s => jsStrEq none s.screen_id) = none :=
    List.find?_eq_none.mpr (fun x _ => by simp [jsStrEq])
  have h2 : (screensOf r).find? (fun s => jsStrEq none s.screen_id) = none :=
    List.find?_eq_none.mpr (fun x _ => by simp [jsStrEq])
  simp [activeScreenOf, h1, h2]

/-- After selecting a flow that resolves to itself, the active screen is
the head of the rendered screen list. -/
theorem select_head_active (y : YanaResult) (f : ScreenFlow)
    (hfirst : activeFlowOf (some y) (some f.flow_slug) = some f) :
    activeScreenOf (some y) (some f.flow_slug) (jsHeadOrNull f.screens)
      = (screensForFlow (some y) (some f.flow_slug)).head? := by
  have hsf : screensForFlow (some y) (some f.flow_slug)
      = f.screens.filterMap (fun id => y.screens.find? (fun s => s.screen_id == id)) := by
    simp [screensForFlow, hfirst]
  cases hscr : f.screens with
  | nil => exact activeScreen_of_none _ _
  | cons id0 rest =>
      by_cases hid : id0 = ""
      · have hh : jsHeadOrNull (id0 :: rest) = none := by
          simp [jsHeadOrNull, hid]
        rw [hh]
        exact activeScreen_of_none _ _
      · have hh : jsHeadOrNull (id0 :: rest) = some id0 := by
          simp [jsHeadOrNull, hid]
        rw [hh]
        cases hres : y.screens.find? (fun s => s.screen_id == id0) with
        | some s0 =>
            have hs0 : s0.screen_id = id0 := by
              simpa using List.find?_some hres
            have hsfc : screensForFlow (some y) (some f.flow_slug)
                = s0 :: rest.filterMap (fun id => y.screens.find? (fun s => s.screen_id == id)) := by
              rw [hsf, hscr]
              simp [List.filterMap_cons, hres]
            have hfind : (s0 :: rest.filterMap
                  (fun id => y.screens.find? (fun s => s.screen_id == id))).find?
                  (fun s => jsStrEq (some id0) s.screen_id) = some s0 :=
              List.find?_cons_of_pos _ (by simp [jsStrEq, hs0])
            simp [activeScreenOf, hsfc, hfind]
        | none =>
            have hsfc : screensForFlow (some y) (some f.flow_slug)
                = rest.filterMap (fun id => y.screens.find? (fun s => s.screen_id == id)) := by
              rw [hsf, hscr]
              simp [List.filterMap_cons, hres]
            have hnone1 : (rest.filterMap
                  (fun id => y.screens.find? (fun s => s.screen_id == id))).find?
                  (fun s => jsStrEq (some id0) s.screen_id) = none := by
              refine List.find?_eq_none.mpr ?_
              intro x hx hpx
              obtain ⟨id, _, hfid⟩ := List.mem_filterMap.mp hx
              have hx0 : id0 = x.screen_id := by simpa [jsStrEq] using hpx
              have hxmem : x ∈ y.screens := List.mem_of_find?_eq_some hfid
              have hall := List.find?_eq_none.mp hres x hxmem
              exact hall (by simp [← hx0])
            have hnone2 : (screensOf (some y)).find?
                  (fun s => jsStrEq (some id0) s.screen_id) = none := by
              refine List.find?_eq_none.mpr ?_
              intro x hxmem hpx
              have hx0 : id0 = x.screen_id := by simpa [jsStrEq] using hpx
              exact List.find?_eq_none.mp hres x hxmem (by simp [← hx0])
            simp [activeScreenOf, hsfc, hnone1, hnone2]

/-- Claim C9 (amended): selecting a flow that is the first in the received
result bearing its slug (in particular, any flow of a result with distinct
flow slugs) makes the rendered screen list exactly that flow's screen-id
sequence resolved in order against the result's screens — each id resolved
to the first screen bearing it, unresolvable ids dropped — and makes the
head of that rendered list the active screen; when the flow's first screen
id resolves, that resolved screen is the active one. -/
theorem select_flow_renders_and_activates (st : PageState) (y : YanaResult) (f : ScreenFlow)
    (hy : st.yanaResult = some y)
    (hfirst : activeFlowOf (some y) (some f.flow_slug) = some f) :
    screensForFlow (selectFlow st f).yanaResult (selectFlow st f).activeFlowSlug
      = f.screens.filterMap (fun id => y.screens.find? (fun s => s.screen_id == id)) ∧
    activeScreenOf (selectFlow st f).yanaResult (selectFlow st f).activeFlowSlug
        (selectFlow st f).activeScreenId
      = (screensForFlow (selectFlow st f).yanaResult (selectFlow st f).activeFlowSlug).head? ∧
    (∀ id rest s0, f.screens = id :: rest →
      y.screens.find? (fun s => s.screen_id == id) = some s0 →
      activeScreenOf (selectFlow st f).yanaResult (selectFlow st f).activeFlowSlug
          (selectFlow st f).activeScreenId = some s0) := by
  have hproj : (selectFlow st f).yanaResult = some y := by
    simp [selectFlow, hy]
  have hslug : (selectFlow st f).activeFlowSlug = some f.flow_slug := rfl
  have hsid : (selectFlow st f).activeScreenId = jsHeadOrNull f.screens := rfl
  have h1 : screensForFlow (selectFlow st f).yanaResult (selectFlow st f).activeFlowSlug
      = f.screens.filterMap (fun id => y.screens.find? (fun s => s.screen_id == id)) := by
    rw [hproj, hslug]
    simp [screensForFlow, hfirst]
  have h2 : activeScreenOf (selectFlow st f).yanaResult (selectFlow st f).activeFlowSlug
        (selectFlow st f).activeScreenId
      = (screensForFlow (selectFlow st f).yanaResult (selectFlow st f).activeFlowSlug).head? := by
    rw [hproj, hslug, hsid]
    exact select_head_active y f hfirst
  refine ⟨h1, h2, ?_⟩
  intro id rest s0 hscr hres
  rw [h2, h1, hscr]
  simp [List.filterMap_cons, hres]

/-- Witness for C9 (amended): in a result with distinct flow slugs,
selecting the second flow renders exactly its resolved screens and
activates the head of that list. -/
theorem select_flow_renders_and_activates_witness :
    screensForFlow (selectFlow stUniq flowDos).yanaResult
        (selectFlow stUniq flowDos).activeFlowSlug
      = flowDos.screens.filterMap
          (fun id => yUniq.screens.find? (fun s => s.screen_id == id)) ∧
    activeScreenOf (selectFlow stUniq flowDos).yanaResult
        (selectFlow stUniq flowDos).activeFlowSlug
        (selectFlow stUniq flowDos).activeScreenId
      = (screensForFlow (selectFlow stUniq flowDos).yanaResult
          (selectFlow stUniq flowDos).activeFlowSlug).head? ∧
    (∀ id rest s0, flowDos.screens = id :: rest →
      yUniq.screens.find? (fun s => s.screen_id == id) = some s0 →
      activeScreenOf (selectFlow stUniq flowDos).yanaResult
          (selectFlow stUniq flowDos).activeFlowSlug
          (selectFlow stUniq flowDos).activeScreenId = some s0) :=
  select_flow_renders_and_activates stUniq yUniq flowDos rfl rfl

/-- Counterexample for C9: two flows of the received result share the slug
dup; selecting the second flow — an element of the result — renders the
first flow's resolved screens, not the selected flow's, because the active
flow is looked up by slug with first match wins. -/
theorem select_flow_duplicate_slug_counterexample :
    flowTwo ∈ yDup.screen_flows ∧
    screensForFlow (selectFlow stDup flowTwo).yanaResult
        (selectFlow stDup flowTwo).activeFlowSlug
      ≠ flowTwo.screens.filterMap
          (fun id => yDup.screens.find? (fun s => s.screen_id == id)) := by
  constructor
  · decide
  · decide

end BeTransparent
